import Mathlib

/-!
Verification of the Smart Study Partner quiz application (`src/Main.py`).

The development shallowly embeds the core logic of the program:

* the response-cleaning step of `generate_quiz` (lines 91-93: the two
  `re.sub` fence-stripping substitutions and the final `strip()`);
* the JSON-repair fallback (lines 95-106: a direct parse, then the first
  greedy brace span `\x7b.*\x7d` with `re.DOTALL`);
* the `quiz` field extraction, emptiness check, option shuffling and
  per-question validation loop (lines 108-122);
* the surrounding `generate_quiz` control flow (lines 31-129), with the
  external HTTP call modelled as a nondeterministic `ApiResult` parameter
  and `json.loads` modelled as an abstract parameter
  `loads : List Char -> Option JsonVal` (both are Python-library effects
  outside the repository);
* the Streamlit session state and the button handlers that mutate it
  (clear-all, submit, reset, the two home buttons, quiz generation);
* the grading block of the results view (lines 562-611) and the history
  append with its minute-timestamp de-duplication guard (lines 614-620).

Strings from the program are modelled as `List Char`; Python float
arithmetic in the score card (`(score / total) * 100`) is modelled by
exact rational arithmetic, which agrees with it on every displayed value
relevant to the claims.
-/

/-- ASCII whitespace as matched by the Python `\s` class and `str.strip()`
(the unicode extension of Python whitespace is not relevant here). -/
def isPySpace (c : Char) : Bool :=
  c == ' ' || c == '\t' || c == '\n' || c == '\r' || c == '\x0b' || c == '\x0c'

/-- `leadsWith pat s` holds when `pat` occurs at the start of `s`. -/
def leadsWith : List Char → List Char → Bool
  | [], _ => true
  | _ :: _, [] => false
  | p :: ps, c :: cs => p == c && leadsWith ps cs

/-- The opening markdown fence stripped at line 91. -/
def fenceJson : List Char := "```json".toList

/-- The closing markdown fence stripped at line 92. -/
def fenceEnd : List Char := "```".toList

/-- Line 91: the first `re.sub` call — remove a leading ```json fence
together with the whitespace that follows it. -/
def stripLeadFence (s : List Char) : List Char :=
  if leadsWith fenceJson s then (s.drop fenceJson.length).dropWhile isPySpace else s

/-- Line 92: the second `re.sub` call — remove a trailing ``` fence
together with the whitespace that precedes it. -/
def stripTrailFence (s : List Char) : List Char :=
  let r := s.reverse
  if leadsWith fenceEnd.reverse r then
    ((r.drop fenceEnd.length).dropWhile isPySpace).reverse
  else s

/-- Python `str.strip()`: drop whitespace from both ends. -/
def pyStrip (s : List Char) : List Char :=
  ((s.dropWhile isPySpace).reverse.dropWhile isPySpace).reverse

/-- Lines 91-93 of `generate_quiz`: fence stripping followed by `strip()`. -/
def cleanResult (s : List Char) : List Char :=
  pyStrip (stripTrailFence (stripLeadFence s))

/-- A response payload wrapped in markdown code fences, with arbitrary
whitespace runs between the fences and the payload. -/
def wrapFences (ws1 ws2 P : List Char) : List Char :=
  fenceJson ++ ws1 ++ P ++ ws2 ++ fenceEnd

/-- The character `\x7b` (opening curly brace). -/
def lbrace : Char := Char.ofNat 123

/-- The character `\x7d` (closing curly brace). -/
def rbrace : Char := Char.ofNat 125

/-- Line 99: the `re.search` over the greedy dotall brace pattern — the
span from the first opening brace to the last closing brace after it,
if any. -/
def braceSpan (s : List Char) : Option (List Char) :=
  let t := s.dropWhile (fun c => !(c == lbrace))
  match t with
  | [] => none
  | _ :: _ =>
    let u := (t.reverse.dropWhile (fun c => !(c == rbrace))).reverse
    if u.length < 2 then none else some u

/-- JSON values as produced by `json.loads` (numbers collapsed to `Int`;
no claim depends on numeric payloads). -/
inductive JsonVal where
  | null : JsonVal
  | bool : Bool → JsonVal
  | num : Int → JsonVal
  | str : String → JsonVal
  | arr : List JsonVal → JsonVal
  | obj : List (String × JsonVal) → JsonVal

/-- Python `==` between a JSON value and the string `k` (only string
values compare equal to a string). -/
def isStrEq (k : String) : JsonVal → Bool
  | .str s => s == k
  | _ => false

/-- Key membership in a JSON object (`false` on non-objects). -/
def hasKey (q : JsonVal) (k : String) : Bool :=
  match q with
  | .obj kvs => kvs.any (fun kv => kv.1 == k)
  | _ => false

/-- A question entry carrying all three keys checked at line 115. -/
def hasAllKeys (q : JsonVal) : Bool :=
  hasKey q ("question") && hasKey q ("options") && hasKey q ("answer")

/-- Python truthiness of a JSON value (`if not quiz_questions`, line 110). -/
def jsonFalsy : JsonVal → Bool
  | .null => true
  | .bool b => !b
  | .num n => n == 0
  | .str s => s.isEmpty
  | .arr l => l.isEmpty
  | .obj kvs => kvs.isEmpty

/-- `occursIn pat s`: `pat` occurs as a contiguous run inside `s`
(Python substring membership `pat in s`). -/
def occursIn (pat : List Char) : List Char → Bool
  | [] => leadsWith pat []
  | c :: cs => leadsWith pat (c :: cs) || occursIn pat cs

/-- Python `k in q` for a JSON value `q`: key membership for objects,
element comparison for lists, substring test for strings, and a
`TypeError` (modelled as an exception message) otherwise. -/
def pyContains (k : String) : JsonVal → Except String Bool
  | .obj kvs => .ok (kvs.any (fun kv => kv.1 == k))
  | .arr l => .ok (l.any (isStrEq k))
  | .str s => .ok (occursIn k.toList s.toList)
  | _ => .error ("TypeError: argument is not iterable")

/-- Python `for q in quiz_questions` (line 114): lists iterate elements,
dicts iterate keys, strings iterate characters, anything else raises. -/
def pyIterate : JsonVal → Except String (List JsonVal)
  | .arr l => .ok l
  | .obj kvs => .ok (kvs.map (fun kv => .str kv.1))
  | .str s => .ok (s.toList.map (fun c => .str c.toString))
  | _ => .error ("TypeError: object is not iterable")

/-- Python `quiz_data.get("quiz", default)` (line 108): dictionary lookup
with a default; an `AttributeError` on non-dicts. -/
def dictGet (j : JsonVal) (k : String) (dflt : JsonVal) : Except String JsonVal :=
  match j with
  | .obj kvs => .ok ((((kvs.find? (fun kv => kv.1 == k))).map (fun kv => kv.2)).getD dflt)
  | _ => .error ("AttributeError: object has no attribute get")

/-- Python subscription `q[k]` with a string key: lookup (a `KeyError` on
a missing key) for dicts, a `TypeError` for everything else. -/
def getItem (q : JsonVal) (k : String) : Except String JsonVal :=
  match q with
  | .obj kvs =>
    match kvs.find? (fun kv => kv.1 == k) with
    | some kv => .ok kv.2
    | none => .error ("KeyError")
  | _ => .error ("TypeError: object is not subscriptable with a string")

/-- Python assignment `q[k] = v` for a dict whose key `k` is already
present (the only way it is reached in `generate_quiz`); non-objects are
returned unchanged (that case is unreachable after a successful
`getItem`). -/
def setKey (q : JsonVal) (k : String) (v : JsonVal) : JsonVal :=
  match q with
  | .obj kvs => .obj (kvs.map (fun kv => if kv.1 == k then (kv.1, v) else kv))
  | other => other

/-- Lines 114-120, one loop iteration: the three `in` membership checks
(short-circuit `and`, in source order), then `correct = q["answer"]`,
`random.shuffle(q["options"])` and `q["answer"] = correct`.  The random
permutation chosen by `random.shuffle` is supplied as the parameter
`perm`; shuffling a non-list raises a `TypeError` (modelled as an
exception message).  Result `.ok none` is the explicit
"Invalid question format received." return at line 120. -/
def processQuestion (perm : List JsonVal → List JsonVal) (q : JsonVal) :
    Except String (Option JsonVal) :=
  match pyContains ("options") q with
  | .error m => .error m
  | .ok false => .ok none
  | .ok true =>
    match pyContains ("answer") q with
    | .error m => .error m
    | .ok false => .ok none
    | .ok true =>
      match pyContains ("question") q with
      | .error m => .error m
      | .ok false => .ok none
      | .ok true =>
        match getItem q ("answer") with
        | .error m => .error m
        | .ok correct =>
          match getItem q ("options") with
          | .error m => .error m
          | .ok (.arr l) =>
            .ok (some (setKey (setKey q ("options") (.arr (perm l))) "answer" correct))
          | .ok _ => .error ("TypeError: random.shuffle argument is not a list")

/-- The whole validation loop of lines 114-122 over the iterated
questions.  `perms i` is the permutation `random.shuffle` applies on the
`i`-th iteration.  `.ok (some qs, none)` is the success return at
line 122; `.ok (none, some msg)` is the explicit error return at
line 120; `.error` is an uncaught Python exception inside the loop. -/
def processAll (perms : Nat → List JsonVal → List JsonVal) :
    Nat → List JsonVal → Except String (Option (List JsonVal) × Option String)
  | _, [] => .ok (some [], none)
  | i, q :: rest =>
    match processQuestion (perms i) q with
    | .error m => .error m
    | .ok none => .ok (none, some ("Invalid question format received."))
    | .ok (some q1) =>
      match processAll perms (i + 1) rest with
      | .error m => .error m
      | .ok (none, msg) => .ok (none, msg)
      | .ok (some qs, _) => .ok (some (q1 :: qs), none)

/-- Lines 108-122 applied to a parsed response `qd`: extract the `quiz`
field with default `[]`, return "No questions were generated." when it is
falsy, otherwise iterate it and run the validation loop. -/
def validateQuiz (perms : Nat → List JsonVal → List JsonVal) (qd : JsonVal) :
    Except String (Option (List JsonVal) × Option String) :=
  match dictGet qd ("quiz") (.arr []) with
  | .error m => .error m
  | .ok qq =>
    if jsonFalsy qq then
      .ok (none, some ("No questions were generated. Try with more text."))
    else
      match pyIterate qq with
      | .error m => .error m
      | .ok items => processAll perms 0 items

/-- Lines 91-122 applied to the raw response content: clean the string,
try a direct `json.loads`, fall back to the first greedy brace span, and
on success run the quiz validation.  `loads` abstracts `json.loads`
(returning `none` on a `JSONDecodeError`). -/
def quizPipeline (loads : List Char → Option JsonVal)
    (perms : Nat → List JsonVal → List JsonVal) (content : List Char) :
    Except String (Option (List JsonVal) × Option String) :=
  let r := cleanResult content
  match loads r with
  | some qd => validateQuiz perms qd
  | none =>
    match braceSpan r with
    | some sub =>
      match loads sub with
      | some qd => validateQuiz perms qd
      | none => .ok (none, some ("Failed to parse quiz response."))
    | none => .ok (none, some ("Failed to parse quiz response."))

/-- Outcome of the external `requests.post` call of line 78, which is a
collaborator outside the repository: a timeout, a transport failure, or a
response with a status code and (for status 200) the attempted extraction
`response.json()["choices"][0]["message"]["content"]`, whose own failure
(`.error`) is a Python exception caught by the generic handler. -/
inductive ApiResult where
  | timeout : ApiResult
  | netError : String → ApiResult
  | response : Nat → Except String (List Char) → ApiResult

/-- Python `not text or not text.strip()` (line 33): the string is empty
or consists of whitespace only. -/
def pyBlank (text : List Char) : Bool :=
  text.all isPySpace

/-- `generate_quiz` (lines 31-129).  The external world enters through
`apiKey` (the configured secret), `api` (the HTTP call outcome), `loads`
(`json.loads`) and `perms` (the permutations drawn by `random.shuffle`).
The function returns the Python pair `(quiz_questions | None, error
message | None)`; every exception raised inside the `try` block is caught
at lines 124-129 and surfaces as a message. -/
def generate_quiz (apiKey : String) (api : ApiResult)
    (loads : List Char → Option JsonVal)
    (perms : Nat → List JsonVal → List JsonVal)
    (text : List Char) (numQuestions : Nat) :
    Option (List JsonVal) × Option String :=
  if pyBlank text then
    (none, some ("Please provide text to generate questions from."))
  else if apiKey.isEmpty then
    (none, some ("API key is required."))
  else
    match api with
    | .timeout => (none, some ("Request timed out. Please try again."))
    | .netError m => (none, some ("Network error: " ++ m))
    | .response code body =>
      if code ≠ 200 then
        if code = 401 then
          (none, some ("Invalid API key. Please check your OpenAI API key."))
        else if code = 429 then
          (none, some ("Rate limit exceeded. Please try again in a moment."))
        else
          (none, some ("API Error " ++ toString code))
      else
        match body with
        | .error m => (none, some ("Unexpected error: " ++ m))
        | .ok content =>
          match quizPipeline loads perms content with
          | .ok res => res
          | .error m => (none, some ("Unexpected error: " ++ m))

/-- One completed-quiz record of the history ledger (lines 615-620). -/
structure HistoryRecord where
  date : String
  score : Rat
  correct : Nat
  total : Nat
deriving DecidableEq

/-- The Streamlit session state initialised by `init_session_state`
(lines 134-152).  `user_answers` is the Python dict from question index
to the selected option (or `None`, straight from an unanswered radio). -/
structure SessionState where
  page : String
  paragraphs : List (List Char)
  quiz : List JsonVal
  user_answers : List (Nat × Option String)
  quiz_ready : Bool
  show_results : Bool
  quiz_history : List HistoryRecord
  current_paragraph : List Char
  dark_mode : Bool
  num_questions : Nat

/-- The session defaults of lines 136-147. -/
def initialSessionState : SessionState :=
  { page := "main", paragraphs := [], quiz := [], user_answers := []
    quiz_ready := false, show_results := false, quiz_history := []
    current_paragraph := [], dark_mode := true, num_questions := 5 }

/-- The Clear All button handler (lines 458-463). -/
def clearAll (s : SessionState) : SessionState :=
  { s with paragraphs := [], quiz := [], quiz_ready := false }

/-- The quiz-page sidebar Home button handler (lines 530-533). -/
def quizHomeSidebar (s : SessionState) : SessionState :=
  { s with page := "main", show_results := false }

/-- The Back Home button handler of the results view (lines 631-635). -/
def resultsHome (s : SessionState) : SessionState :=
  { s with page := "main", quiz_ready := false, show_results := false }

/-- Python `st.session_state.user_answers.get(i)` — dict lookup with a
`None` default (and the stored value itself may be `None`). -/
def amGet (m : List (Nat × Option String)) (i : Nat) : Option String :=
  match m.find? (fun kv => kv.1 == i) with
  | some kv => kv.2
  | none => none

/-- Line 511: `len([k for k in user_answers if user_answers[k] is not
None])` — the number of entries carrying a non-`None` value. -/
def answeredCount (m : List (Nat × Option String)) : Nat :=
  m.countP (fun kv => kv.2.isSome)

/-- The Submit Quiz button (lines 521-523): disabled while
`answered < len(quiz)`; when clicked it only sets `show_results`.
`none` means the transition is blocked. -/
def submitStep (s : SessionState) : Option SessionState :=
  if answeredCount s.user_answers < s.quiz.length then none
  else some { s with show_results := true }

/-- The comparison `user_ans == correct_ans` of line 569: the left side is
the dict value (a string or `None`), the right side is the value of the
`answer` JSON value, compared with Python `==`.  `none` on the right
models reaching `q["answer"]` on an entry without that field, which in
the program would raise instead of comparing; the claims only evaluate
this on validated quizzes, where the field is present. -/
def ansEq (userAns : Option String) (correct : Option JsonVal) : Bool :=
  match userAns, correct with
  | some u, some (.str c) => u == c
  | none, some .null => true
  | _, _ => false

/-- The `answer` field of a question entry, when the entry is an object
carrying it. -/
def answerOf (q : JsonVal) : Option JsonVal :=
  match q with
  | .obj kvs => (kvs.find? (fun kv => kv.1 == "answer")).map (fun kv => kv.2)
  | _ => none

/-- The grading fold of lines 562-570: `score` starts at 0 and is
incremented once for every enumerated question whose stored answer
compares equal to its `answer` field. -/
def gradeScore (quiz : List JsonVal) (ans : List (Nat × Option String)) : Nat :=
  quiz.enum.foldl
    (fun sc iq => if ansEq (amGet ans iq.1) (answerOf iq.2) then sc + 1 else sc) 0

/-- Line 592: `percentage = (score / total) * 100`, in exact rational
arithmetic. -/
def gradePercentage (score total : Nat) : Rat :=
  ((score : Rat) / (total : Rat)) * 100

/-- The feedback banding of lines 594-602. -/
def feedbackMessage (p : Rat) : String :=
  if 80 ≤ p then ("Excellent work!")
  else if 60 ≤ p then ("Good job!")
  else ("Keep studying!")

/-- The history append of lines 614-620: append a record stamped with the
current minute-resolution time `now` unless some existing record carries
the identical stamp. -/
def recordHistory (now : String) (percentage : Rat) (correct total : Nat)
    (hist : List HistoryRecord) : List HistoryRecord :=
  if hist.any (fun h => h.date == now) then hist
  else hist ++ [{ date := now, score := percentage, correct := correct, total := total }]

/-- The ledgers reachable through the history operations of the program: the
initial empty ledger (line 143), the guarded append of the results view
(lines 614-620), and the Clear History button (line 691). -/
inductive ReachableHistory : List HistoryRecord → Prop where
  | init : ReachableHistory []
  | record (now : String) (p : Rat) (c t : Nat) {h : List HistoryRecord} :
      ReachableHistory h → ReachableHistory (recordHistory now p c t h)
  | clear {h : List HistoryRecord} : ReachableHistory h → ReachableHistory []

/-- The Generate Quiz button handler (lines 476-491): run
`generate_quiz` on the chosen paragraph; on a truthy error message leave
the state alone, on a truthy quiz install it and move to the quiz page,
otherwise leave the state alone. -/
def genQuizButton (apiKey : String) (api : ApiResult)
    (loads : List Char → Option JsonVal)
    (perms : Nat → List JsonVal → List JsonVal)
    (s : SessionState) (para : List Char) : SessionState :=
  match generate_quiz apiKey api loads perms para s.num_questions with
  | (quizOpt, errOpt) =>
    if (match errOpt with | some m => !m.isEmpty | none => false) then s
    else if (match quizOpt with | some qz => !qz.isEmpty | none => false) then
      { s with quiz := quizOpt.getD [], quiz_ready := true, user_answers := []
               show_results := false, page := "quiz" }
    else s

/-! ### Helper lemmas about the cleaning step -/

theorem leadsWith_append (p t : List Char) : leadsWith p (p ++ t) = true := by
  induction p with
  | nil => rfl
  | cons c cs ih => simp [leadsWith, ih]

theorem dropWhile_eq_nil_of_all {p : Char → Bool} {l : List Char}
    (h : l.all p = true) : l.dropWhile p = [] := by
  induction l with
  | nil => rfl
  | cons c cs ih =>
    simp only [List.all_cons, Bool.and_eq_true] at h
    simp [List.dropWhile_cons, h.1, ih h.2]

theorem stripLeadFence_wrap (ws1 rest : List Char) (hws1 : ws1.all isPySpace = true)
    (hld : rest.dropWhile isPySpace = rest) :
    stripLeadFence (fenceJson ++ (ws1 ++ rest)) = rest := by
  simp only [stripLeadFence, leadsWith_append, if_true, List.drop_left,
    List.dropWhile_append, dropWhile_eq_nil_of_all hws1, hld]
  simp [hld]

theorem stripTrailFence_wrap (ws2 P : List Char) (hws2 : ws2.all isPySpace = true)
    (htd : P.reverse.dropWhile isPySpace = P.reverse) :
    stripTrailFence (P ++ (ws2 ++ fenceEnd)) = P := by
  have hrev : (P ++ (ws2 ++ fenceEnd)).reverse =
      fenceEnd.reverse ++ (ws2.reverse ++ P.reverse) := by
    simp [List.reverse_append]
  have hwsr : ws2.reverse.all isPySpace = true := List.all_reverse.trans hws2
  have hdw : (ws2.reverse ++ P.reverse).dropWhile isPySpace = P.reverse := by
    rw [List.dropWhile_append, dropWhile_eq_nil_of_all hwsr]
    simp [htd]
  have hlen : fenceEnd.length = fenceEnd.reverse.length := (List.length_reverse _).symm
  simp only [stripTrailFence, hrev, leadsWith_append, if_true, hlen, List.drop_left, hdw,
    List.reverse_reverse]

theorem pyStrip_eq_self {P : List Char} (hld : P.dropWhile isPySpace = P)
    (htd : P.reverse.dropWhile isPySpace = P.reverse) : pyStrip P = P := by
  simp [pyStrip, hld, htd]

theorem cleanResult_eq_self {P : List Char}
    (hld : P.dropWhile isPySpace = P) (htd : P.reverse.dropWhile isPySpace = P.reverse)
    (hpre : leadsWith fenceJson P = false)
    (hsuf : leadsWith fenceEnd.reverse P.reverse = false) :
    cleanResult P = P := by
  have h1 : stripLeadFence P = P := by simp [stripLeadFence, hpre]
  have h2 : stripTrailFence P = P := by simp [stripTrailFence, hsuf]
  simp [cleanResult, h1, h2, pyStrip_eq_self hld htd]

theorem cleanResult_wrap {P ws1 ws2 : List Char}
    (hws1 : ws1.all isPySpace = true) (hws2 : ws2.all isPySpace = true)
    (hlen : 0 < P.length)
    (hld : P.dropWhile isPySpace = P) (htd : P.reverse.dropWhile isPySpace = P.reverse) :
    cleanResult (wrapFences ws1 ws2 P) = P := by
  have hne : P.isEmpty = false := by
    cases P with
    | nil => simp at hlen
    | cons c cs => rfl
  have hrestld : (P ++ (ws2 ++ fenceEnd)).dropWhile isPySpace = P ++ (ws2 ++ fenceEnd) := by
    rw [List.dropWhile_append, hld, hne]
    simp
  have h1 : stripLeadFence (wrapFences ws1 ws2 P) = P ++ (ws2 ++ fenceEnd) := by
    have hw : wrapFences ws1 ws2 P = fenceJson ++ (ws1 ++ (P ++ (ws2 ++ fenceEnd))) := by
      simp [wrapFences]
    rw [hw, stripLeadFence_wrap _ _ hws1 hrestld]
  rw [cleanResult, h1, stripTrailFence_wrap _ _ hws2 htd, pyStrip_eq_self hld htd]

/-! ### Claim C5 -/

/-- Claim C5: for every valid JSON payload `P` (a nonempty text with no
surrounding whitespace that neither starts with the opening fence nor ends
with a fence), the Response Parser applied to `P` wrapped in markdown code
fences yields the same result as applied to `P` unwrapped: the cleaning
step maps both to `P` itself, cleaning is idempotent on them, and the
whole parse pipeline agrees on the two inputs. -/
theorem fence_stripping_lossless (P ws1 ws2 : List Char)
    (hws1 : ws1.all isPySpace = true) (hws2 : ws2.all isPySpace = true)
    (hlen : 0 < P.length)
    (hld : P.dropWhile isPySpace = P) (htd : P.reverse.dropWhile isPySpace = P.reverse)
    (hpre : leadsWith fenceJson P = false)
    (hsuf : leadsWith fenceEnd.reverse P.reverse = false) :
    cleanResult (wrapFences ws1 ws2 P) = cleanResult P ∧
    cleanResult (cleanResult (wrapFences ws1 ws2 P)) = cleanResult (wrapFences ws1 ws2 P) ∧
    ∀ loads perms, quizPipeline loads perms (wrapFences ws1 ws2 P) =
      quizPipeline loads perms P := by
  have hwrap : cleanResult (wrapFences ws1 ws2 P) = P :=
    cleanResult_wrap hws1 hws2 hlen hld htd
  have hself : cleanResult P = P := cleanResult_eq_self hld htd hpre hsuf
  refine ⟨hwrap.trans hself.symm, ?_, ?_⟩
  · rw [hwrap, hself]
  · intro loads perms
    simp only [quizPipeline, hwrap, hself]

/-- Concrete instantiation of `fence_stripping_lossless` at the payload
`\x7b"quiz": []\x7d` wrapped in newline-separated fences. -/
theorem fence_stripping_lossless_witness :
    (("\n".toList.all isPySpace = true) ∧
     (0 < "\x7b\"quiz\": []\x7d".toList.length) ∧
     ("\x7b\"quiz\": []\x7d".toList.dropWhile isPySpace = "\x7b\"quiz\": []\x7d".toList) ∧
     (leadsWith fenceJson ("\x7b\"quiz\": []\x7d").toList = false)) ∧
    cleanResult (wrapFences ("\n").toList ("\n").toList ("\x7b\"quiz\": []\x7d").toList) =
      cleanResult ("\x7b\"quiz\": []\x7d").toList :=
  ⟨⟨by decide, by decide, by decide, by decide⟩,
    (fence_stripping_lossless ("\x7b\"quiz\": []\x7d").toList ("\n").toList ("\n").toList
      (by decide) (by decide) (by decide) (by decide) (by decide)
      (by decide) (by decide)).1⟩

/-! ### Claims C4 and C9 (session-state transitions) -/

/-- A sample validated quiz question used in concrete counterexamples. -/
def exQuestion : JsonVal :=
  .obj [("question", .str ("Q")),
        ("options", .arr [.str ("a) 1"), .str ("b) 2"), .str ("c) 3"), .str ("d) 4")]),
        ("answer", .str ("b) 2")),
        ("explanation", .str ("because"))]

/-- A session sitting on the results view of a one-question quiz. -/
def exState : SessionState :=
  { initialSessionState with
      page := "quiz", quiz := [exQuestion], quiz_ready := true, show_results := true,
      user_answers := [(0, some ("b) 2"))] }

/-- Claim C4, counterexample: the results-view Back Home handler does
NOT clear the active quiz — starting from a results view holding a
one-question quiz, the quiz list after `resultsHome` is still that same
nonempty list (only `quiz_ready` and `show_results` are cleared). -/
theorem resultsHome_keeps_quiz :
    (resultsHome exState).quiz = [exQuestion] ∧
    0 < (resultsHome exState).quiz.length ∧
    (resultsHome exState).quiz_ready = false := by
  refine ⟨rfl, ?_, rfl⟩
  simp [resultsHome, exState]

/-- Claim C4 (amended): both home transitions from the quiz page clear
the result-visibility flag and leave the active quiz in place; the
results-home action additionally clears the quiz-ready flag (but, like
the sidebar home button, does not clear the quiz); paragraphs, history
and the AnswerMap are unchanged by either transition. -/
theorem home_transitions_frame (s : SessionState) :
    (quizHomeSidebar s).page = "main" ∧
    (quizHomeSidebar s).show_results = false ∧
    (quizHomeSidebar s).quiz = s.quiz ∧
    (quizHomeSidebar s).quiz_ready = s.quiz_ready ∧
    (quizHomeSidebar s).paragraphs = s.paragraphs ∧
    (quizHomeSidebar s).quiz_history = s.quiz_history ∧
    (quizHomeSidebar s).user_answers = s.user_answers ∧
    (resultsHome s).page = "main" ∧
    (resultsHome s).show_results = false ∧
    (resultsHome s).quiz_ready = false ∧
    (resultsHome s).quiz = s.quiz ∧
    (resultsHome s).paragraphs = s.paragraphs ∧
    (resultsHome s).quiz_history = s.quiz_history ∧
    (resultsHome s).user_answers = s.user_answers :=
  ⟨rfl, rfl, rfl, rfl, rfl, rfl, rfl, rfl, rfl, rfl, rfl, rfl, rfl, rfl⟩

/-- Claim C9: the Clear All handler, from any session state, leaves an
empty paragraph list, an empty active quiz and a cleared quiz-ready
flag (and touches nothing else of the session). -/
theorem clearAll_clears (s : SessionState) :
    (clearAll s).paragraphs = [] ∧
    (clearAll s).quiz = [] ∧
    (clearAll s).quiz_ready = false ∧
    (clearAll s).page = s.page ∧
    (clearAll s).user_answers = s.user_answers ∧
    (clearAll s).show_results = s.show_results ∧
    (clearAll s).quiz_history = s.quiz_history :=
  ⟨rfl, rfl, rfl, rfl, rfl, rfl, rfl⟩

/-! ### Helper lemmas about object access and update -/

theorem fst_upd (k : String) (v : JsonVal) (kv : String × JsonVal) :
    (if kv.1 == k then (kv.1, v) else kv).1 = kv.1 := by
  by_cases h : kv.1 == k <;> simp [h]

theorem find?_setKey (kvs : List (String × JsonVal)) (k k' : String) (v : JsonVal) :
    (kvs.map (fun kv => if kv.1 == k then (kv.1, v) else kv)).find?
        (fun kv => kv.1 == k') =
      (kvs.find? (fun kv => kv.1 == k')).map
        (fun kv => if kv.1 == k then (kv.1, v) else kv) := by
  induction kvs with
  | nil => rfl
  | cons kv rest ih =>
    simp only [List.map_cons, List.find?_cons, fst_upd]
    cases h : kv.1 == k' with
    | true => simp [h]
    | false => simp only [h]; exact ih

theorem hasKey_setKey (kvs : List (String × JsonVal)) (k k' : String) (v : JsonVal) :
    hasKey (setKey (.obj kvs) k v) k' = hasKey (.obj kvs) k' := by
  have hfun : ((fun kv => kv.1 == k') ∘
      (fun kv : String × JsonVal => if kv.1 == k then (kv.1, v) else kv)) =
      (fun kv : String × JsonVal => kv.1 == k') := by
    funext kv
    simp only [Function.comp_apply, fst_upd]
  simp only [setKey, hasKey, List.any_map, hfun]

theorem hasKey_of_getItem_ok {kvs : List (String × JsonVal)} {k : String} {v : JsonVal}
    (h : getItem (.obj kvs) k = .ok v) : hasKey (.obj kvs) k = true := by
  simp only [getItem] at h
  cases hf : kvs.find? (fun kv => kv.1 == k) with
  | none => rw [hf] at h; exact absurd h (by simp)
  | some kv =>
    have hp := List.find?_some hf
    exact List.any_eq_true.mpr ⟨kv, List.mem_of_find?_eq_some hf, hp⟩

theorem getItem_setKey_self {kvs : List (String × JsonVal)} {k : String} {v w : JsonVal}
    (h : getItem (.obj kvs) k = .ok w) :
    getItem (setKey (.obj kvs) k v) k = .ok v := by
  simp only [getItem, setKey, find?_setKey]
  simp only [getItem] at h
  cases hf : kvs.find? (fun kv => kv.1 == k) with
  | none => rw [hf] at h; exact absurd h (by simp)
  | some kv =>
    have hk := List.find?_some hf
    simp only [hf, Option.map_some']
    simp only at hk
    simp [hk]

theorem getItem_setKey_ne (kvs : List (String × JsonVal)) {k k' : String} (v : JsonVal)
    (hne : k' ≠ k) :
    getItem (setKey (.obj kvs) k v) k' = getItem (.obj kvs) k' := by
  simp only [getItem, setKey, find?_setKey]
  cases hf : kvs.find? (fun kv => kv.1 == k') with
  | none => rfl
  | some kv =>
    have hk := List.find?_some hf
    simp only at hk
    have hkeq : kv.1 = k' := beq_iff_eq.mp hk
    have hkk : (kv.1 == k) = false := by
      rw [hkeq]
      exact beq_eq_false_iff_ne.mpr hne
    have hnk : kv.1 ≠ k := by rw [hkeq]; exact hne
    simp [hkk, hnk]

theorem processQuestion_obj (perm : List JsonVal → List JsonVal)
    (kvs : List (String × JsonVal)) (a : JsonVal) (opts : List JsonVal)
    (hq : hasKey (.obj kvs) "question" = true)
    (ho : getItem (.obj kvs) "options" = .ok (.arr opts))
    (ha : getItem (.obj kvs) "answer" = .ok a) :
    processQuestion perm (.obj kvs) =
      .ok (some (setKey (setKey (.obj kvs) "options" (.arr (perm opts))) "answer" a)) := by
  have hko : hasKey (.obj kvs) "options" = true := hasKey_of_getItem_ok ho
  have hka : hasKey (.obj kvs) "answer" = true := hasKey_of_getItem_ok ha
  simp only [hasKey] at hq hko hka
  simp only [processQuestion, pyContains, hq, hko, hka, ha, ho]

/-! ### Claim C1 -/

/-- Claim C1: for a quiz question object whose `answer` value is one of
its `options` before shuffling, the Option Shuffler step of
`generate_quiz` (lines 114-118, with the permutation chosen by
`random.shuffle` supplied as `perm`) leaves the multiset of option values
unchanged — the shuffled options are a permutation of the originals — and
the `answer` field afterwards is the very same string and is still an
element of the options sequence. -/
theorem option_shuffler_preserves_answer (perm : List JsonVal → List JsonVal)
    (kvs : List (String × JsonVal)) (a : String) (opts : List JsonVal)
    (hq : hasKey (.obj kvs) "question" = true)
    (ho : getItem (.obj kvs) "options" = .ok (.arr opts))
    (ha : getItem (.obj kvs) "answer" = .ok (.str a))
    (hmem : JsonVal.str a ∈ opts)
    (hperm : (perm opts).Perm opts) :
    ∃ q1, processQuestion perm (.obj kvs) = .ok (some q1) ∧
      getItem q1 ("options") = .ok (.arr (perm opts)) ∧
      getItem q1 ("answer") = .ok (.str a) ∧
      ((perm opts : Multiset JsonVal) = (opts : Multiset JsonVal)) ∧
      JsonVal.str a ∈ perm opts := by
  refine ⟨setKey (setKey (.obj kvs) "options" (.arr (perm opts))) "answer" (.str a),
    processQuestion_obj perm kvs (.str a) opts hq ho ha, ?_, ?_, ?_, ?_⟩
  · have h1 : getItem (setKey (.obj kvs) "options" (.arr (perm opts))) "options" =
        .ok (.arr (perm opts)) := getItem_setKey_self ho
    calc getItem (setKey (setKey (.obj kvs) "options" (.arr (perm opts))) "answer"
          (.str a)) "options"
        = getItem (setKey (.obj kvs) "options" (.arr (perm opts))) "options" :=
          getItem_setKey_ne _ _ (by decide)
      _ = .ok (.arr (perm opts)) := h1
  · have h2 : getItem (setKey (.obj kvs) "options" (.arr (perm opts))) "answer" =
        .ok (.str a) := by
      rw [getItem_setKey_ne _ _ (by decide)]
      exact ha
    exact getItem_setKey_self h2
  · exact Multiset.coe_eq_coe.mpr hperm
  · exact hperm.mem_iff.mpr hmem

/-- Concrete instantiation of `option_shuffler_preserves_answer` on the
sample question `exQuestion` with the reversing permutation. -/
theorem option_shuffler_witness :
    (hasKey exQuestion ("question") = true) ∧
    (getItem exQuestion ("answer") = .ok (.str ("b) 2"))) ∧
    (JsonVal.str ("b) 2") ∈ [JsonVal.str ("a) 1"), .str ("b) 2"), .str ("c) 3"), .str ("d) 4")]) ∧
    ∃ q1, processQuestion List.reverse exQuestion = .ok (some q1) ∧
      getItem q1 ("options") =
        .ok (.arr (List.reverse [JsonVal.str ("a) 1"), .str ("b) 2"), .str ("c) 3"), .str ("d) 4")])) ∧
      getItem q1 ("answer") = .ok (.str ("b) 2")) ∧
      ((List.reverse [JsonVal.str ("a) 1"), .str ("b) 2"), .str ("c) 3"), .str ("d) 4")] :
          Multiset JsonVal) =
        ([JsonVal.str ("a) 1"), .str ("b) 2"), .str ("c) 3"), .str ("d) 4")] : Multiset JsonVal)) ∧
      JsonVal.str ("b) 2") ∈
        List.reverse [JsonVal.str ("a) 1"), .str ("b) 2"), .str ("c) 3"), .str ("d) 4")] :=
  ⟨rfl, rfl,
    List.mem_cons_of_mem _ (List.mem_cons_self _ _),
    option_shuffler_preserves_answer List.reverse
      [("question", .str ("Q")),
       ("options", .arr [.str ("a) 1"), .str ("b) 2"), .str ("c) 3"), .str ("d) 4")]),
       ("answer", .str ("b) 2")),
       ("explanation", .str ("because"))]
      "b) 2" [JsonVal.str ("a) 1"), .str ("b) 2"), .str ("c) 3"), .str ("d) 4")]
      rfl rfl rfl
      (List.mem_cons_of_mem _ (List.mem_cons_self _ _))
      (List.reverse_perm _)⟩

/-! ### Claim C2 -/

theorem foldl_count {α : Type} (p : α → Bool) (l : List α) (n : Nat) :
    l.foldl (fun sc x => if p x then sc + 1 else sc) n = n + l.countP p := by
  induction l generalizing n with
  | nil => simp [List.countP_nil]
  | cons a rest ih =>
    by_cases h : p a <;> simp [List.countP_cons, h, ih] <;> omega

/-- The two-question quiz of the grading example in the specification. -/
def exQuiz : List JsonVal :=
  [.obj [("question", .str ("Q1")), ("answer", .str ("b) X"))],
   .obj [("question", .str ("Q2")), ("answer", .str ("a) Y"))]]

/-- The AnswerMap `\x7b0: "b) X", 1: "b) Y"\x7d` of the grading example. -/
def exAnswers : List (Nat × Option String) :=
  [(0, some ("b) X")), (1, some ("b) Y"))]

/-- Claim C2: on entering the results view, an answer is counted correct
exactly when the stored AnswerMap entry is string-equal (case-sensitive,
letter included) to the `answer` field of the question; the score is the count
of such matches; `percentage = 100 * score / total`; the feedback band is
"Excellent work!" iff `percentage >= 80`, "Good job!" iff
`60 <= percentage < 80`, and "Keep studying!" otherwise; and on the quiz
`["b) X", "a) Y"]` with answers `\x7b0: "b) X", 1: "b) Y"\x7d` the score
is 1, the percentage 50 and the band "Keep studying!". -/
theorem grading_correct :
    (∀ (quiz : List JsonVal) (ans : List (Nat × Option String)),
      gradeScore quiz ans =
        quiz.enum.countP (fun iq => ansEq (amGet ans iq.1) (answerOf iq.2))) ∧
    (∀ (u c : String), ansEq (some u) (some (.str c)) = true ↔ u = c) ∧
    (∀ score total : Nat,
      gradePercentage score total = 100 * (score : Rat) / (total : Rat)) ∧
    (∀ p : Rat,
      (feedbackMessage p = "Excellent work!" ↔ 80 ≤ p) ∧
      (feedbackMessage p = "Good job!" ↔ 60 ≤ p ∧ p < 80) ∧
      (feedbackMessage p = "Keep studying!" ↔ p < 60)) ∧
    (gradeScore exQuiz exAnswers = 1 ∧
      gradePercentage (gradeScore exQuiz exAnswers) exQuiz.length = 50 ∧
      feedbackMessage (gradePercentage (gradeScore exQuiz exAnswers) exQuiz.length) =
        "Keep studying!") := by
  refine ⟨?_, ?_, ?_, ?_, ?_, ?_, ?_⟩
  · intro quiz ans
    simp [gradeScore, foldl_count]
  · intro u c
    simp [ansEq]
  · intro score total
    simp [gradePercentage]
    ring
  · intro p
    constructor
    · simp only [feedbackMessage]
      split_ifs with h1 h2 <;> simp_all <;> linarith
    constructor
    · simp only [feedbackMessage]
      split_ifs with h1 h2 <;> simp_all <;> constructor <;> intro <;> linarith
    · simp only [feedbackMessage]
      split_ifs with h1 h2 <;> simp_all <;> linarith
  · rfl
  · have h : gradeScore exQuiz exAnswers = 1 := rfl
    rw [h]
    norm_num [gradePercentage, exQuiz]
  · have h : gradeScore exQuiz exAnswers = 1 := rfl
    rw [h]
    have h50 : gradePercentage 1 exQuiz.length = 50 := by
      norm_num [gradePercentage, exQuiz]
    rw [h50]
    norm_num [feedbackMessage]

/-! ### Claim C3 -/

theorem answeredCount_le (m : List (Nat × Option String)) (N : Nat)
    (hnodup : (m.map Prod.fst).Nodup) (hrange : ∀ kv ∈ m, kv.1 < N) :
    answeredCount m ≤ N := by
  have h1 : answeredCount m ≤ m.length := List.countP_le_length _
  have h2 : m.length = (m.map Prod.fst).length := (List.length_map _ _).symm
  have h3 : (m.map Prod.fst).length = (m.map Prod.fst).toFinset.card :=
    (List.toFinset_card_of_nodup hnodup).symm
  have h4 : (m.map Prod.fst).toFinset ⊆ Finset.range N := by
    intro x hx
    rw [List.mem_toFinset, List.mem_map] at hx
    obtain ⟨kv, hkv, rfl⟩ := hx
    exact Finset.mem_range.mpr (hrange kv hkv)
  have h5 : (m.map Prod.fst).toFinset.card ≤ N := by
    have := Finset.card_le_card h4
    rwa [Finset.card_range] at this
  omega

/-- Claim C3: with AnswerMap keys drawn from `0..N-1` (a Python dict, so
keys are distinct), the submit transition is enabled exactly when the
number of non-`None` entries equals the quiz length; whenever that count
is smaller the transition is blocked, and any state produced by submit
has the results flag set and a full answer count. -/
theorem submit_guard (s : SessionState)
    (hnodup : (s.user_answers.map Prod.fst).Nodup)
    (hrange : ∀ kv ∈ s.user_answers, kv.1 < s.quiz.length) :
    ((submitStep s).isSome = true ↔
      answeredCount s.user_answers = s.quiz.length) ∧
    (answeredCount s.user_answers < s.quiz.length → submitStep s = none) ∧
    (∀ s1, submitStep s = some s1 →
      s1.show_results = true ∧ answeredCount s.user_answers = s.quiz.length) := by
  have hle : answeredCount s.user_answers ≤ s.quiz.length :=
    answeredCount_le _ _ hnodup hrange
  refine ⟨?_, ?_, ?_⟩
  · simp only [submitStep]
    split_ifs with h
    · simp only [Option.isSome_none, Bool.false_eq_true, false_iff]
      omega
    · simp only [Option.isSome_some, true_iff]
      omega
  · intro h
    simp [submitStep, h]
  · intro s1 hs1
    simp only [submitStep] at hs1
    split_ifs at hs1 with h
    have hs := Option.some.inj hs1
    subst hs
    exact ⟨rfl, by omega⟩

/-- Concrete instantiation of `submit_guard` on the one-question session
`exState`, whose single answer is recorded. -/
theorem submit_guard_witness :
    ((exState.user_answers.map Prod.fst).Nodup) ∧
    (∀ kv ∈ exState.user_answers, kv.1 < exState.quiz.length) ∧
    ((submitStep exState).isSome = true ↔
      answeredCount exState.user_answers = exState.quiz.length) :=
  ⟨by decide, by decide, (submit_guard exState (by decide) (by decide)).1⟩

/-! ### Claim C7 -/

theorem recordHistory_nodup {now : String} {p : Rat} {c t : Nat}
    {hist : List HistoryRecord}
    (h : (hist.map HistoryRecord.date).Nodup) :
    ((recordHistory now p c t hist).map HistoryRecord.date).Nodup := by
  simp only [recordHistory]
  split_ifs with hany
  · exact h
  · rw [List.map_append, List.nodup_append]
    refine ⟨h, List.nodup_singleton _, ?_⟩
    intro d hd hmem
    rw [List.mem_map] at hd
    obtain ⟨r, hr, rfl⟩ := hd
    simp only [List.map_cons, List.map_nil, List.mem_singleton] at hmem
    rw [List.any_eq_true] at hany
    exact hany ⟨r, hr, by simp [hmem]⟩

/-- Claim C7: the history append (lines 614-620) adds a record stamped
with the current minute only when no existing record carries the same
minute stamp; recording twice with the same minute stamp appends at most
one entry (the second call is a no-op); each call grows the ledger by at
most one record; and every ledger reachable through the history
operations has pairwise-distinct minute stamps. -/
theorem history_dedup :
    (∀ (now : String) (p : Rat) (c t : Nat) (hist : List HistoryRecord),
      ((hist.map HistoryRecord.date).Nodup →
        ((recordHistory now p c t hist).map HistoryRecord.date).Nodup) ∧
      (recordHistory now p c t hist).length ≤ hist.length + 1 ∧
      (hist.any (fun h => h.date == now) = true → recordHistory now p c t hist = hist)) ∧
    (∀ (now : String) (p c1 : Rat) (c t c2 t2 : Nat) (hist : List HistoryRecord),
      recordHistory now c1 c2 t2 (recordHistory now p c t hist) =
        recordHistory now p c t hist) ∧
    (∀ hist, ReachableHistory hist → (hist.map HistoryRecord.date).Nodup) := by
  refine ⟨?_, ?_, ?_⟩
  · intro now p c t hist
    refine ⟨recordHistory_nodup, ?_, ?_⟩
    · simp only [recordHistory]
      split_ifs <;> simp
    · intro h
      simp [recordHistory, h]
  · intro now p c1 c t c2 t2 hist
    by_cases hany : hist.any (fun h => h.date == now) = true
    · simp [recordHistory, hany]
    · have h1 : recordHistory now p c t hist =
          hist ++ [{ date := now, score := p, correct := c, total := t }] := by
        simp only [recordHistory]
        rw [if_neg hany]
      rw [h1]
      have h2 : (hist ++ ([{ date := now, score := p, correct := c, total := t }] :
          List HistoryRecord)).any (fun h => h.date == now) = true := by
        rw [List.any_append]
        simp
      simp [recordHistory, h2]
  · intro hist hreach
    induction hreach with
    | init => simp
    | record now p c t _ ih => exact recordHistory_nodup ih
    | clear _ _ => simp

/-- Concrete instantiation of `history_dedup`: a second `record` call in
the same minute is a no-op, and the resulting one-record ledger (reached
through the operations of the program) has distinct stamps. -/
theorem history_dedup_witness :
    (recordHistory ("2026-10-12 09:00") 50 1 2
        (recordHistory ("2026-10-12 09:00") 50 1 2 []) =
      recordHistory ("2026-10-12 09:00") 50 1 2 []) ∧
    ((recordHistory ("2026-10-12 09:00") 50 1 2 []).map HistoryRecord.date).Nodup :=
  ⟨history_dedup.2.1 ("2026-10-12 09:00") 50 50 1 2 1 2 [],
    history_dedup.2.2 _
      (ReachableHistory.record ("2026-10-12 09:00") 50 1 2 ReachableHistory.init)⟩

/-! ### Claim C8 -/

/-- Claim C8: for every question count, calling `generate_quiz` on an
empty or whitespace-only text fails with the validation message and no
quiz; the outcome does not depend on the external API at all (no call is
observable); and the Generate Quiz button leaves the whole session state
unchanged on this path. -/
theorem blank_text_validation (apiKey : String) (api api2 : ApiResult)
    (loads : List Char → Option JsonVal)
    (perms : Nat → List JsonVal → List JsonVal)
    (text : List Char) (n : Nat)
    (hblank : pyBlank text = true) :
    generate_quiz apiKey api loads perms text n =
      (none, some ("Please provide text to generate questions from.")) ∧
    generate_quiz apiKey api loads perms text n =
      generate_quiz apiKey api2 loads perms text n ∧
    ∀ s : SessionState, genQuizButton apiKey api loads perms s text = s := by
  have h : generate_quiz apiKey api loads perms text n =
      (none, some ("Please provide text to generate questions from.")) := by
    simp [generate_quiz, hblank]
  have h2 : generate_quiz apiKey api2 loads perms text n =
      (none, some ("Please provide text to generate questions from.")) := by
    simp [generate_quiz, hblank]
  refine ⟨h, h.trans h2.symm, ?_⟩
  intro s
  have hn : generate_quiz apiKey api loads perms text s.num_questions =
      (none, some ("Please provide text to generate questions from.")) := by
    simp [generate_quiz, hblank]
  simp [genQuizButton, hn]

/-- Concrete instantiation of `blank_text_validation` on the whitespace
text consisting of a space and a newline. -/
theorem blank_text_validation_witness :
    (pyBlank (" \n").toList = true) ∧
    generate_quiz ("key") ApiResult.timeout (fun _ => none) (fun _ l => l) " \n".toList 5 =
      (none, some ("Please provide text to generate questions from.")) :=
  ⟨by decide,
    (blank_text_validation ("key") ApiResult.timeout (ApiResult.netError ("x"))
      (fun _ => none) (fun _ l => l) " \n".toList 5 (by decide)).1⟩

/-! ### Structure of the validation loop results (for C6 and C10) -/

theorem any_key_map_upd (kvs : List (String × JsonVal)) (k k' : String) (v : JsonVal) :
    (kvs.map (fun kv => if kv.1 == k then (kv.1, v) else kv)).any
        (fun kv => kv.1 == k') =
      kvs.any (fun kv => kv.1 == k') := by
  have hfun : ((fun kv => kv.1 == k') ∘
      (fun kv : String × JsonVal => if kv.1 == k then (kv.1, v) else kv)) =
      (fun kv : String × JsonVal => kv.1 == k') := by
    funext kv
    simp only [Function.comp_apply, fst_upd]
  rw [List.any_map, hfun]

theorem processQuestion_ok_some_keys {perm : List JsonVal → List JsonVal}
    {q q1 : JsonVal} (h : processQuestion perm q = .ok (some q1)) :
    hasAllKeys q1 = true := by
  cases q with
  | null => simp [processQuestion, pyContains] at h
  | bool b => simp [processQuestion, pyContains] at h
  | num n => simp [processQuestion, pyContains] at h
  | str s =>
    simp only [processQuestion, pyContains, getItem] at h
    split at h
    all_goals try (split at h)
    all_goals try (split at h)
    all_goals simp_all
  | arr l =>
    simp only [processQuestion, pyContains, getItem] at h
    split at h
    all_goals try (split at h)
    all_goals try (split at h)
    all_goals simp_all
  | obj kvs =>
    cases hop : kvs.any (fun kv => kv.1 == "options") with
    | false => simp [processQuestion, pyContains, hop] at h
    | true =>
      cases han : kvs.any (fun kv => kv.1 == "answer") with
      | false => simp [processQuestion, pyContains, hop, han] at h
      | true =>
        cases hqu : kvs.any (fun kv => kv.1 == "question") with
        | false => simp [processQuestion, pyContains, hop, han, hqu] at h
        | true =>
          cases hfa : kvs.find? (fun kv => kv.1 == "answer") with
          | none =>
            simp [processQuestion, pyContains, getItem, hop, han, hqu, hfa] at h
          | some kva =>
            cases hfo : kvs.find? (fun kv => kv.1 == "options") with
            | none =>
              simp [processQuestion, pyContains, getItem, hop, han, hqu, hfa, hfo] at h
            | some kvo =>
              cases hv : kvo.2 with
              | null =>
                simp [processQuestion, pyContains, getItem, hop, han, hqu, hfa, hfo, hv] at h
              | bool b =>
                simp [processQuestion, pyContains, getItem, hop, han, hqu, hfa, hfo, hv] at h
              | num n =>
                simp [processQuestion, pyContains, getItem, hop, han, hqu, hfa, hfo, hv] at h
              | str s2 =>
                simp [processQuestion, pyContains, getItem, hop, han, hqu, hfa, hfo, hv] at h
              | obj kvs2 =>
                simp [processQuestion, pyContains, getItem, hop, han, hqu, hfa, hfo, hv] at h
              | arr l =>
                simp only [processQuestion, pyContains, getItem, hop, han, hqu, hfa, hfo,
                  hv] at h
                rw [Except.ok.injEq, Option.some.injEq] at h
                subst h
                simp only [hasAllKeys, setKey, hasKey, any_key_map_upd, Bool.and_eq_true]
                exact ⟨⟨hqu, hop⟩, han⟩

theorem processAll_cases (perms : Nat → List JsonVal → List JsonVal) :
    ∀ (items : List JsonVal) (i : Nat) (r : Option (List JsonVal)) (e : Option String),
      processAll perms i items = .ok (r, e) →
      (∃ qs, r = some qs ∧ e = none ∧ qs.length = items.length ∧
        ∀ q ∈ qs, hasAllKeys q = true) ∨
      (r = none ∧ e = some ("Invalid question format received.")) := by
  intro items
  induction items with
  | nil =>
    intro i r e h
    simp only [processAll, Except.ok.injEq, Prod.mk.injEq] at h
    exact Or.inl ⟨[], h.1.symm, h.2.symm, rfl, by simp⟩
  | cons q rest ih =>
    intro i r e h
    simp only [processAll] at h
    cases hpq : processQuestion (perms i) q with
    | error m => rw [hpq] at h; cases h
    | ok o =>
      cases o with
      | none =>
        rw [hpq] at h
        simp only [Except.ok.injEq, Prod.mk.injEq] at h
        exact Or.inr ⟨h.1.symm, h.2.symm⟩
      | some q1 =>
        rw [hpq] at h
        cases hrest : processAll perms (i + 1) rest with
        | error m => rw [hrest] at h; cases h
        | ok re =>
          obtain ⟨r1, e1⟩ := re
          rw [hrest] at h
          cases r1 with
          | none =>
            simp only [Except.ok.injEq, Prod.mk.injEq] at h
            rcases ih (i + 1) none e1 hrest with hl | hrr
            · obtain ⟨qs, hqs, -⟩ := hl
              cases hqs
            · exact Or.inr ⟨h.1.symm, h.2.symm ▸ hrr.2⟩
          | some qs1 =>
            simp only [Except.ok.injEq, Prod.mk.injEq] at h
            rcases ih (i + 1) (some qs1) e1 hrest with hl | hrr
            · obtain ⟨qs, hqs, -, hlen, hkeys⟩ := hl
              have hq1 := processQuestion_ok_some_keys hpq
              refine Or.inl ⟨q1 :: qs1, h.1.symm, h.2.symm, ?_, ?_⟩
              · have heq : qs = qs1 := (Option.some.inj hqs).symm
                subst heq
                simp [hlen]
              · intro x hx
                rcases List.mem_cons.mp hx with rfl | hxm
                · exact hq1
                · have heq : qs = qs1 := (Option.some.inj hqs).symm
                  subst heq
                  exact hkeys x hxm
            · cases hrr.1

theorem pyIterate_len {qq : JsonVal} {l : List JsonVal}
    (hf : jsonFalsy qq = false) (hi : pyIterate qq = .ok l) : 0 < l.length := by
  cases qq with
  | null => simp [jsonFalsy] at hf
  | bool b => simp [pyIterate] at hi
  | num n => simp [pyIterate] at hi
  | str s =>
    simp only [pyIterate, Except.ok.injEq] at hi
    subst hi
    simp only [jsonFalsy] at hf
    have h2 : s ≠ "" := by
      intro he
      have ht : s.isEmpty = true := (String.isEmpty_iff s).mpr he
      rw [ht] at hf
      cases hf
    have h3 : s.toList ≠ [] := by
      intro hnil
      exact h2 (String.ext hnil)
    simpa using List.length_pos.mpr h3
  | arr l0 =>
    simp only [pyIterate, Except.ok.injEq] at hi
    subst hi
    simp only [jsonFalsy, List.isEmpty_eq_false] at hf
    exact List.length_pos.mpr hf
  | obj kvs =>
    simp only [pyIterate, Except.ok.injEq] at hi
    subst hi
    simp only [jsonFalsy, List.isEmpty_eq_false] at hf
    simpa using List.length_pos.mpr hf

theorem validateQuiz_cases (perms : Nat → List JsonVal → List JsonVal) (qd : JsonVal)
    (r : Option (List JsonVal)) (e : Option String)
    (h : validateQuiz perms qd = .ok (r, e)) :
    (∃ qs, r = some qs ∧ e = none ∧ 0 < qs.length ∧ ∀ q ∈ qs, hasAllKeys q = true) ∨
    (r = none ∧ (e = some ("No questions were generated. Try with more text.") ∨
                 e = some ("Invalid question format received."))) := by
  cases qd with
  | null => simp [validateQuiz, dictGet] at h
  | bool b => simp [validateQuiz, dictGet] at h
  | num n => simp [validateQuiz, dictGet] at h
  | str s => simp [validateQuiz, dictGet] at h
  | arr l0 => simp [validateQuiz, dictGet] at h
  | obj kvs =>
    simp only [validateQuiz, dictGet] at h
    split_ifs at h with hfal
    · simp only [Except.ok.injEq, Prod.mk.injEq] at h
      exact Or.inr ⟨h.1.symm, Or.inl h.2.symm⟩
    · have hfal2 : jsonFalsy (((kvs.find? (fun kv => kv.1 == "quiz")).map
          (fun kv => kv.2)).getD (.arr [])) = false := by
        simpa using hfal
      cases hit : pyIterate (((kvs.find? (fun kv => kv.1 == "quiz")).map
          (fun kv => kv.2)).getD (.arr [])) with
      | error m => rw [hit] at h; cases h
      | ok items =>
        rw [hit] at h
        rcases processAll_cases perms items 0 r e h with hl | hr2
        · obtain ⟨qs, h1, h2, h3, h4⟩ := hl
          have hpos : 0 < items.length := pyIterate_len hfal2 hit
          exact Or.inl ⟨qs, h1, h2, by omega, h4⟩
        · exact Or.inr ⟨hr2.1, Or.inr hr2.2⟩

theorem getItem_ok_of_hasKey {kvs : List (String × JsonVal)} {k : String}
    (h : hasKey (.obj kvs) k = true) : ∃ v, getItem (.obj kvs) k = .ok v := by
  simp only [hasKey] at h
  have hs : (kvs.find? (fun kv => kv.1 == k)).isSome = true := by
    rw [List.find?_isSome]
    exact List.any_eq_true.mp h
  obtain ⟨kv, hkv⟩ := Option.isSome_iff_exists.mp hs
  exact ⟨kv.2, by simp [getItem, hkv]⟩

theorem processQuestion_obj_missing (perm : List JsonVal → List JsonVal)
    (kvs : List (String × JsonVal))
    (h : hasAllKeys (.obj kvs) = false) :
    processQuestion perm (.obj kvs) = .ok none := by
  simp only [hasAllKeys, hasKey, Bool.and_eq_false_iff] at h
  cases hop : kvs.any (fun kv => kv.1 == "options") with
  | false => simp [processQuestion, pyContains, hop]
  | true =>
    cases han : kvs.any (fun kv => kv.1 == "answer") with
    | false => simp [processQuestion, pyContains, hop, han]
    | true =>
      cases hqu : kvs.any (fun kv => kv.1 == "question") with
      | false => simp [processQuestion, pyContains, hop, han, hqu]
      | true =>
        rcases h with (h1 | h2) | h3
        · rw [hqu] at h1; cases h1
        · rw [hop] at h2; cases h2
        · rw [han] at h3; cases h3

theorem processAll_invalid (perms : Nat → List JsonVal → List JsonVal) :
    ∀ (items : List JsonVal) (i : Nat),
      (∀ q ∈ items, ∃ kvsq, q = JsonVal.obj kvsq) →
      (∀ q ∈ items, ∀ v, getItem q ("options") = .ok v → ∃ l, v = .arr l) →
      (∃ q ∈ items, hasAllKeys q = false) →
      processAll perms i items = .ok (none, some ("Invalid question format received.")) := by
  intro items
  induction items with
  | nil =>
    rintro i - - ⟨q, hq, -⟩
    cases hq
  | cons q rest ih =>
    intro i hobj hopts hbad
    obtain ⟨kvsq, rfl⟩ := hobj q (List.mem_cons_self _ _)
    by_cases hk : hasAllKeys (JsonVal.obj kvsq) = true
    · have hk2 := hk
      simp only [hasAllKeys, Bool.and_eq_true] at hk2
      obtain ⟨⟨hq1, hq2⟩, hq3⟩ := hk2
      obtain ⟨va, hva⟩ := getItem_ok_of_hasKey hq3
      obtain ⟨vo, hvo⟩ := getItem_ok_of_hasKey hq2
      obtain ⟨lo, rfl⟩ := hopts _ (List.mem_cons_self _ _) vo hvo
      have hpq := processQuestion_obj (perms i) kvsq va lo hq1 hvo hva
      have hbadrest : ∃ x ∈ rest, hasAllKeys x = false := by
        rcases hbad with ⟨x, hx, hxf⟩
        rcases List.mem_cons.mp hx with rfl | hxm
        · rw [hk] at hxf; cases hxf
        · exact ⟨x, hxm, hxf⟩
      have hrest := ih (i + 1) (fun x hx => hobj x (List.mem_cons_of_mem _ hx))
        (fun x hx => hopts x (List.mem_cons_of_mem _ hx)) hbadrest
      simp only [processAll, hpq, hrest]
    · have hkf : hasAllKeys (JsonVal.obj kvsq) = false := by
        cases hval : hasAllKeys (JsonVal.obj kvsq) with
        | false => rfl
        | true => rw [hval] at hk; exact absurd rfl hk
      have hpq := processQuestion_obj_missing (perms i) kvsq hkf
      simp only [processAll, hpq]

theorem validateQuiz_no_parsefail (perms : Nat → List JsonVal → List JsonVal)
    (qd : JsonVal) (r : Option (List JsonVal))
    (h : validateQuiz perms qd = .ok (r, some ("Failed to parse quiz response."))) :
    False := by
  rcases validateQuiz_cases perms qd r _ h with ⟨qs, -, h2, -⟩ | ⟨-, h2 | h2⟩
  · cases h2
  · exact absurd (Option.some.inj h2) (by decide)
  · exact absurd (Option.some.inj h2) (by decide)

/-! ### Claim C6 -/

/-- Claim C6: the Response Parser fails with "Failed to parse quiz
response." exactly when both the direct parse of the cleaned text and the
parse of the first greedy brace span fail; it fails with "No questions
were generated." when the `quiz` field of the parsed object is absent or an
empty list; and it fails with "Invalid question format received." when
the `quiz` list (of object entries whose `options` values, when present,
are lists, per the expected response shape) contains an entry lacking one
of the keys `question`, `options`, `answer`. -/
theorem parser_error_taxonomy :
    (∀ (loads : List Char → Option JsonVal) perms content,
      quizPipeline loads perms content =
          .ok (none, some ("Failed to parse quiz response.")) ↔
        (loads (cleanResult content) = none ∧
          ((braceSpan (cleanResult content)).bind loads) = none)) ∧
    (∀ (loads : List Char → Option JsonVal) perms content kvs,
      loads (cleanResult content) = some (.obj kvs) →
      (kvs.find? (fun kv => kv.1 == "quiz") = none ∨
        ∃ kv, kvs.find? (fun kv => kv.1 == "quiz") = some kv ∧ kv.2 = .arr []) →
      quizPipeline loads perms content =
        .ok (none, some ("No questions were generated. Try with more text."))) ∧
    (∀ (loads : List Char → Option JsonVal) perms content kvs items,
      loads (cleanResult content) = some (.obj kvs) →
      dictGet (.obj kvs) "quiz" (.arr []) = .ok (.arr items) →
      (∀ q ∈ items, ∃ kvsq, q = JsonVal.obj kvsq) →
      (∀ q ∈ items, ∀ v, getItem q ("options") = .ok v → ∃ l, v = .arr l) →
      (∃ q ∈ items, hasAllKeys q = false) →
      quizPipeline loads perms content =
        .ok (none, some ("Invalid question format received."))) := by
  refine ⟨?_, ?_, ?_⟩
  · intro loads perms content
    constructor
    · intro h
      cases hl : loads (cleanResult content) with
      | some qd =>
        exfalso
        simp only [quizPipeline, hl] at h
        exact validateQuiz_no_parsefail perms qd none h
      | none =>
        refine ⟨rfl, ?_⟩
        cases hb : braceSpan (cleanResult content) with
        | none => rfl
        | some sub =>
          cases hl2 : loads sub with
          | some qd =>
            exfalso
            simp only [quizPipeline, hl, hb, hl2] at h
            exact validateQuiz_no_parsefail perms qd none h
          | none => simp [hl2]
    · rintro ⟨h1, h2⟩
      simp only [quizPipeline, h1]
      cases hb : braceSpan (cleanResult content) with
      | none => rfl
      | some sub =>
        rw [hb] at h2
        have hl2 : loads sub = none := by simpa using h2
        simp [hl2]
  · intro loads perms content kvs hl hempty
    simp only [quizPipeline, hl, validateQuiz, dictGet]
    rcases hempty with hnone | ⟨kv, hsome, hv⟩
    · rw [hnone]
      simp [jsonFalsy]
    · rw [hsome]
      simp [hv, jsonFalsy]
  · intro loads perms content kvs items hl hdg hobj hopts hbad
    have hgd : ((kvs.find? (fun kv => kv.1 == "quiz")).map (fun kv => kv.2)).getD
        (.arr []) = .arr items := by
      simpa [dictGet] using hdg
    have hne : items ≠ [] := by
      rcases hbad with ⟨q, hq, -⟩
      exact List.ne_nil_of_mem hq
    have hfal : jsonFalsy (.arr items) = false := by
      simp [jsonFalsy, hne]
    simp only [quizPipeline, hl, validateQuiz, dictGet, hgd, hfal]
    simp [pyIterate, processAll_invalid perms items 0 hobj hopts hbad]

/-- Concrete instantiations of the three failure modes of
`parser_error_taxonomy`: an unparseable response, a response whose parsed
object has no `quiz` field, and a quiz entry missing all keys. -/
theorem parser_error_taxonomy_witness :
    quizPipeline (fun _ => none) (fun _ l => l) "no json here".toList =
        .ok (none, some ("Failed to parse quiz response.")) ∧
    quizPipeline (fun _ => some (.obj [])) (fun _ l => l) "x".toList =
        .ok (none, some ("No questions were generated. Try with more text.")) ∧
    quizPipeline (fun _ => some (.obj [("quiz", .arr [.obj []])])) (fun _ l => l)
        "x".toList =
        .ok (none, some ("Invalid question format received.")) := by
  refine ⟨?_, ?_, ?_⟩
  · exact (parser_error_taxonomy.1 (fun _ => none) (fun _ l => l)
      "no json here".toList).mpr ⟨rfl, by rfl⟩
  · exact parser_error_taxonomy.2.1 (fun _ => some (.obj [])) (fun _ l => l)
      "x".toList [] rfl (Or.inl rfl)
  · refine parser_error_taxonomy.2.2 (fun _ => some (.obj [("quiz", .arr [.obj []])]))
      (fun _ l => l) "x".toList [("quiz", .arr [.obj []])] [.obj []] rfl rfl ?_ ?_ ?_
    · intro q hq
      rw [List.mem_singleton] at hq
      subst hq
      exact ⟨[], rfl⟩
    · intro q hq v hv
      rw [List.mem_singleton] at hq
      subst hq
      simp [getItem] at hv
    · exact ⟨.obj [], List.mem_singleton.mpr rfl, rfl⟩

theorem quizPipeline_cases (loads : List Char → Option JsonVal)
    (perms : Nat → List JsonVal → List JsonVal) (content : List Char)
    (r : Option (List JsonVal)) (e : Option String)
    (h : quizPipeline loads perms content = .ok (r, e)) :
    (∃ qs, r = some qs ∧ e = none ∧ 0 < qs.length ∧ ∀ q ∈ qs, hasAllKeys q = true) ∨
    (r = none ∧ (e = some ("No questions were generated. Try with more text.") ∨
                 e = some ("Invalid question format received.") ∨
                 e = some ("Failed to parse quiz response."))) := by
  cases hl : loads (cleanResult content) with
  | some qd =>
    simp only [quizPipeline, hl] at h
    rcases validateQuiz_cases perms qd r e h with hleft | ⟨h1, h2 | h2⟩
    · exact Or.inl hleft
    · exact Or.inr ⟨h1, Or.inl h2⟩
    · exact Or.inr ⟨h1, Or.inr (Or.inl h2)⟩
  | none =>
    cases hb : braceSpan (cleanResult content) with
    | none =>
      simp only [quizPipeline, hl, hb, Except.ok.injEq, Prod.mk.injEq] at h
      exact Or.inr ⟨h.1.symm, Or.inr (Or.inr h.2.symm)⟩
    | some sub =>
      cases hl2 : loads sub with
      | some qd =>
        simp only [quizPipeline, hl, hb, hl2] at h
        rcases validateQuiz_cases perms qd r e h with hleft | ⟨h1, h2 | h2⟩
        · exact Or.inl hleft
        · exact Or.inr ⟨h1, Or.inl h2⟩
        · exact Or.inr ⟨h1, Or.inr (Or.inl h2)⟩
      | none =>
        simp only [quizPipeline, hl, hb, hl2, Except.ok.injEq, Prod.mk.injEq] at h
        exact Or.inr ⟨h.1.symm, Or.inr (Or.inr h.2.symm)⟩

/-! ### Claim C10 -/

/-- Claim C10: for every input, API outcome, parser behaviour and random
choice, `generate_quiz` returns a `(result, error)` pair (no exception
escapes: every raise inside the `try` block is caught and surfaced as a
message) with exactly one component present — on success the result is a
nonempty list of question objects each carrying the keys `question`,
`options` and `answer` with a `none` error, and on every failure path the
result is `none` and the error a nonempty message. -/
theorem generate_quiz_total_safe (apiKey : String) (api : ApiResult)
    (loads : List Char → Option JsonVal) (perms : Nat → List JsonVal → List JsonVal)
    (text : List Char) (n : Nat) :
    (∃ qs, (generate_quiz apiKey api loads perms text n).1 = some qs ∧
      (generate_quiz apiKey api loads perms text n).2 = none ∧
      0 < qs.length ∧ ∀ q ∈ qs, hasAllKeys q = true) ∨
    ((generate_quiz apiKey api loads perms text n).1 = none ∧
      ∃ m, (generate_quiz apiKey api loads perms text n).2 = some m ∧
        0 < m.length) := by
  by_cases hblank : pyBlank text = true
  · have hgen : generate_quiz apiKey api loads perms text n =
        (none, some ("Please provide text to generate questions from.")) := by
      simp [generate_quiz, hblank]
    rw [hgen]
    exact Or.inr ⟨rfl, _, rfl, by decide⟩
  · have hblank2 : pyBlank text = false := by
      cases hv : pyBlank text with
      | false => rfl
      | true => rw [hv] at hblank; exact absurd rfl hblank
    by_cases hkey : apiKey.isEmpty = true
    · have hgen : generate_quiz apiKey api loads perms text n =
          (none, some ("API key is required.")) := by
        simp [generate_quiz, hblank2, hkey]
      rw [hgen]
      exact Or.inr ⟨rfl, _, rfl, by decide⟩
    · have hkey2 : apiKey.isEmpty = false := by
        cases hv : apiKey.isEmpty with
        | false => rfl
        | true => rw [hv] at hkey; exact absurd rfl hkey
      cases api with
      | timeout =>
        have hgen : generate_quiz apiKey .timeout loads perms text n =
            (none, some ("Request timed out. Please try again.")) := by
          simp [generate_quiz, hblank2, hkey2]
        rw [hgen]
        exact Or.inr ⟨rfl, _, rfl, by decide⟩
      | netError m =>
        have hgen : generate_quiz apiKey (.netError m) loads perms text n =
            (none, some ("Network error: " ++ m)) := by
          simp [generate_quiz, hblank2, hkey2]
        rw [hgen]
        refine Or.inr ⟨rfl, _, rfl, ?_⟩
        rw [String.length_append]
        have hp : 0 < "Network error: ".length := by decide
        omega
      | response code body =>
        by_cases hcode : code = 200
        · subst hcode
          cases body with
          | error m =>
            have hgen : generate_quiz apiKey (.response 200 (.error m))
                loads perms text n = (none, some ("Unexpected error: " ++ m)) := by
              simp [generate_quiz, hblank2, hkey2]
            rw [hgen]
            refine Or.inr ⟨rfl, _, rfl, ?_⟩
            rw [String.length_append]
            have hp : 0 < "Unexpected error: ".length := by decide
            omega
          | ok content =>
            cases hpipe : quizPipeline loads perms content with
            | error m =>
              have hgen : generate_quiz apiKey (.response 200 (.ok content))
                  loads perms text n = (none, some ("Unexpected error: " ++ m)) := by
                simp [generate_quiz, hblank2, hkey2, hpipe]
              rw [hgen]
              refine Or.inr ⟨rfl, _, rfl, ?_⟩
              rw [String.length_append]
              have hp : 0 < "Unexpected error: ".length := by decide
              omega
            | ok res =>
              obtain ⟨r, e⟩ := res
              have hgen : generate_quiz apiKey (.response 200 (.ok content))
                  loads perms text n = (r, e) := by
                simp [generate_quiz, hblank2, hkey2, hpipe]
              rw [hgen]
              rcases quizPipeline_cases loads perms content r e hpipe with
                ⟨qs, h1, h2, h3, h4⟩ | ⟨h1, h2⟩
              · exact Or.inl ⟨qs, h1, h2, h3, h4⟩
              · refine Or.inr ⟨h1, ?_⟩
                rcases h2 with h2 | h2 | h2 <;> exact ⟨_, h2, by decide⟩
        · by_cases h401 : code = 401
          · subst h401
            have hgen : generate_quiz apiKey (.response 401 body) loads perms text n =
                (none, some ("Invalid API key. Please check your OpenAI API key.")) := by
              simp [generate_quiz, hblank2, hkey2]
            rw [hgen]
            exact Or.inr ⟨rfl, _, rfl, by decide⟩
          · by_cases h429 : code = 429
            · subst h429
              have hgen : generate_quiz apiKey (.response 429 body) loads perms text n =
                  (none, some ("Rate limit exceeded. Please try again in a moment.")) := by
                simp [generate_quiz, hblank2, hkey2]
              rw [hgen]
              exact Or.inr ⟨rfl, _, rfl, by decide⟩
            · have hgen : generate_quiz apiKey (.response code body) loads perms text n =
                  (none, some ("API Error " ++ toString code)) := by
                simp [generate_quiz, hblank2, hkey2, hcode, h401, h429]
              rw [hgen]
              refine Or.inr ⟨rfl, _, rfl, ?_⟩
              rw [String.length_append]
              have hp : 0 < "API Error ".length := by decide
              omega

/-- Concrete instantiation of `generate_quiz_total_safe` on a successful
one-question response. -/
theorem generate_quiz_total_safe_witness :
    (∃ qs, (generate_quiz ("key") (.response 200 (.ok ("ignored").toList))
        (fun _ => some (.obj [("quiz", .arr [exQuestion])])) (fun _ l => l)
        "study text".toList 5).1 = some qs ∧
      (generate_quiz ("key") (.response 200 (.ok ("ignored").toList))
        (fun _ => some (.obj [("quiz", .arr [exQuestion])])) (fun _ l => l)
        "study text".toList 5).2 = none ∧
      0 < qs.length ∧ ∀ q ∈ qs, hasAllKeys q = true) ∨
    ((generate_quiz ("key") (.response 200 (.ok ("ignored").toList))
        (fun _ => some (.obj [("quiz", .arr [exQuestion])])) (fun _ l => l)
        "study text".toList 5).1 = none ∧
      ∃ m, (generate_quiz ("key") (.response 200 (.ok ("ignored").toList))
        (fun _ => some (.obj [("quiz", .arr [exQuestion])])) (fun _ l => l)
        "study text".toList 5).2 = some m ∧ 0 < m.length) :=
  generate_quiz_total_safe ("key") (.response 200 (.ok ("ignored").toList))
    (fun _ => some (.obj [("quiz", .arr [exQuestion])])) (fun _ l => l)
    "study text".toList 5
